import Mathlib

/-!
Shallow embedding of `src/homework.py` (a Telegram homework-status polling
bot) and proofs of the specification claims about it.

Modelling conventions:
* JSON-like Python values are the inductive `PyVal`; dictionaries are
  association lists keyed by strings (the bot only ever uses string keys).
* Python exceptions become the `PyErr` type; a function that may raise
  returns `Except PyErr α`.  `errStr e` is Python's `str(e)` for the
  exception objects actually constructed by this program.
* Logging is explicit: functions return the list of log records they emit.
* The outside world (the HTTP request issued by `requests.get` and the
  Telegram `bot.send_message` call) is a per-cycle input: `ReqOutcome`
  says how the GET turned out, and an `Option String` says whether
  `bot.send_message` succeeded (`none`) or raised a `TelegramError`
  carrying the given text (`some err`).
* The `telegram.Bot(token=...)` construction that `main` runs before
  `check_tokens` is modelled by `telegram_Bot`: the library validates its
  token at construction and raises on a missing or empty one.
* The module-level dicts `current_status` / `previous_status` only ever
  hold the single key `'status'`, so each is represented by an
  `Option String` (`none` = the empty dict `\x7b\x7d`, `some m` = the dict
  mapping `'status'` to `m`); Python dict equality coincides with
  `Option String` equality on these reachable values.
-/

namespace HomeworkBot

/-- Python/JSON values as far as this program inspects them. -/
inductive PyVal where
  | none
  | bool (b : Bool)
  | int (n : Int)
  | str (s : String)
  | list (xs : List PyVal)
  | dict (kvs : List (String × PyVal))

/-- Log severities used by the program. -/
inductive LogLevel where
  | debug
  | info
  | error
  | critical
deriving DecidableEq, Repr

/-- One log record: severity and message. -/
abbrev LogEntry := LogLevel × String

/-- The exceptions this program constructs or meets (`invalidToken` is
python-telegram-bot's `InvalidToken`, raised by `telegram.Bot` on an empty
token; `attributeError` arises when a non-dict record reaches `.get`). -/
inductive PyErr where
  | keyError (msg : String)
  | typeError (msg : String)
  | httpError
  | connectionError (msg : String)
  | telegramError (msg : String)
  | sendingError
  | invalidToken
  | attributeError (msg : String)
deriving DecidableEq, Repr

/-- Python's `str(e)` for the exception objects this program builds:
`KeyError` shows its argument in quotes, the bare `SendingError` and the
argument-less HTTP error render as the empty string, `InvalidToken`
renders as its fixed message. -/
def errStr : PyErr → String
  | PyErr.keyError m => "'" ++ m ++ "'"
  | PyErr.typeError m => m
  | PyErr.httpError => ""
  | PyErr.connectionError m => m
  | PyErr.telegramError m => m
  | PyErr.sendingError => ""
  | PyErr.invalidToken => "Invalid token"
  | PyErr.attributeError m => m

/-- `RETRY_PERIOD = 20` (seconds slept between poll cycles). -/
def RETRY_PERIOD : Nat := 20

/-- The fixed API endpoint. -/
def ENDPOINT : String := "https://practicum.yandex.ru/api/user_api/homework_statuses/"

/-- The fixed three-entry status → verdict-text table `HOMEWORK_VERDICTS`. -/
def HOMEWORK_VERDICTS : List (String × String) :=
  [("approved", "Работа проверена: ревьюеру всё понравилось. Ура!"),
   ("reviewing", "Работа взята на проверку ревьюером."),
   ("rejected", "Работа проверена: у ревьюера есть замечания.")]

/-- Python `str()` of a value, as used inside the program's f-strings.
The program only ever formats strings (and `None` for an absent field);
the renderings of containers are a placeholder never reached by the
claims. -/
def pyStr : PyVal → String
  | PyVal.none => "None"
  | PyVal.bool b => if b then "True" else "False"
  | PyVal.int n => toString n
  | PyVal.str s => s
  | PyVal.list _ => "[...]"
  | PyVal.dict _ => "\x7b...\x7d"

/-- The three environment variables read at import time; `none` models an
unset variable, `some s` a set one (possibly empty). -/
structure Env where
  PRACTICUM_TOKEN : Option String
  TELEGRAM_TOKEN : Option String
  TELEGRAM_CHAT_ID : Option String

/-- Python truthiness test `not TOKEN` for an `os.getenv` result: true when
the variable is unset or holds the empty string. -/
def falsyEnv : Option String → Bool
  | Option.none => true
  | some s => s == ""

/-- `check_tokens()`: logs one critical record per missing variable plus a
final critical record, and calls `sys.exit()` (the returned `Bool`) when
any is missing.  The commented-out chat-availability probe in the source is
dead code and is not modelled. -/
def check_tokens (env : Env) : List LogEntry × Bool :=
  let l1 : List LogEntry :=
    if falsyEnv env.PRACTICUM_TOKEN then
      [(LogLevel.critical,
        "Отсутствует обязательная переменная окружения PRACTICUM_TOKEN")]
    else []
  let l2 : List LogEntry :=
    if falsyEnv env.TELEGRAM_TOKEN then
      [(LogLevel.critical,
        "Отсутствует обязательная переменная окружения TELEGRAM_TOKEN.")]
    else []
  let l3 : List LogEntry :=
    if falsyEnv env.TELEGRAM_CHAT_ID then
      [(LogLevel.critical,
        "Отсутствует обязательная переменная окружения TELEGRAM_CHAT_ID.")]
    else []
  let missing_tokens : Nat :=
    (if falsyEnv env.PRACTICUM_TOKEN then 1 else 0) +
    (if falsyEnv env.TELEGRAM_TOKEN then 1 else 0) +
    (if falsyEnv env.TELEGRAM_CHAT_ID then 1 else 0)
  if missing_tokens ≠ 0 then
    (l1 ++ l2 ++ l3 ++ [(LogLevel.critical, "Программа принудительно остановлена.")], true)
  else
    (l1 ++ l2 ++ l3, false)

/-- How the single `requests.get` of one cycle turned out:
a response with a status code and JSON body, a `requests.ConnectionError`,
or some other `requests.RequestException` with the given text. -/
inductive ReqOutcome where
  | resp (status_code : Nat) (body : PyVal)
  | connError
  | reqError (msg : String)

/-- `HTTPStatus.OK`. -/
def HTTPStatus_OK : Nat := 200

/-- Result of `get_api_answer`: the `from_date` query parameter it sent,
the log records it emitted, and either a raised exception or the returned
value (`PyVal.none` on the silent fall-through path). -/
structure ApiAnswer where
  from_date : Int
  logs : List LogEntry
  result : Except PyErr PyVal

/-- `get_api_answer(timestamp)`.  A non-OK status logs an error naming the
endpoint and code and raises the HTTP error of line 101 (the source spells
it `http.exceptions.HTTPError()`; we model the raise as the distinct
`PyErr.httpError` kind — in any case it is not a `requests` exception, so
neither `except` clause catches it and it propagates).  A
`requests.ConnectionError` is re-raised as `ConnectionError('Connection
error')`.  Any other `RequestException` is only logged, after which the
function falls through and returns Python `None`. -/
def get_api_answer (world : ReqOutcome) (timestamp : Int) : ApiAnswer :=
  match world with
  | ReqOutcome.resp code body =>
      if code ≠ HTTPStatus_OK then
        ⟨timestamp,
         [(LogLevel.error,
           "Сбой в работе программы: Эндпойнт " ++ ENDPOINT ++
           " недоступен. Код ответа API: " ++ toString code)],
         Except.error PyErr.httpError⟩
      else
        ⟨timestamp, [], Except.ok body⟩
  | ReqOutcome.connError =>
      ⟨timestamp, [], Except.error (PyErr.connectionError "Connection error")⟩
  | ReqOutcome.reqError m =>
      ⟨timestamp, [(LogLevel.error, "Request error " ++ m)], Except.ok PyVal.none⟩

/-- `send_message(bot, message)`.  `tg` is the Telegram outcome for this
call (`none` = delivered, `some err` = `TelegramError` with text `err`).
Returns (logs, messages actually passed to `bot.send_message`); the
codomain has no error component because the `except TelegramError` clause
swallows every failure. -/
def send_message (tg : Option String) (message : String) : List LogEntry × List String :=
  match tg with
  | Option.none =>
      ([(LogLevel.debug, "Сообщение отправлено в Telegram")], [message])
  | some err =>
      ([(LogLevel.error, "Сбой при отправке сообщения в Telegram: " ++ err)], [message])

/-- `check_response(response)`: type/shape validation of the API answer. -/
def check_response (response : PyVal) : Except PyErr (List PyVal) :=
  match response with
  | PyVal.dict kvs =>
      match kvs.lookup "homeworks" with
      | Option.none => Except.error (PyErr.keyError "Ответ API не содержит ключ homeworks")
      | some v =>
          match v with
          | PyVal.list xs => Except.ok xs
          | _ => Except.error
              (PyErr.typeError "Ответ API под ключом \"homeworks\" не является списком")
  | _ => Except.error (PyErr.typeError "Ответ API не является словарем")

/-- Python `homework_status in HOMEWORK_VERDICTS`: the membership test on
the string-keyed verdict dict hashes the candidate key, so a list- or
dict-valued candidate raises `TypeError: unhashable type`; every hashable
non-string value (`None` for an absent field, booleans, numbers) is simply
not a key, and a string is a member exactly when it is one of the three
keys. -/
def statusKeyMem : Option PyVal → Except PyErr Bool
  | some (PyVal.list _) => Except.error (PyErr.typeError "unhashable type: 'list'")
  | some (PyVal.dict _) => Except.error (PyErr.typeError "unhashable type: 'dict'")
  | some (PyVal.str s) => Except.ok (HOMEWORK_VERDICTS.lookup s).isSome
  | _ => Except.ok false

/-- The verdict text `HOMEWORK_VERDICTS.get(homework_status)` renders to;
only reached under `statusKeyInVerdicts`, where the lookup succeeds. -/
def verdictOf : Option PyVal → String
  | some (PyVal.str s) => (HOMEWORK_VERDICTS.lookup s).getD "None"
  | _ => "None"

/-- `parse_status(homework)` on a homework record (a dict).  Missing
`homework_name` raises a `KeyError`; then the membership test on the
`status` value runs (`statusKeyMem`): an unhashable list/dict value makes
it raise `TypeError`, a hashable value that is not one of the three keys
(including an absent `status`, for which `.get` yields `None`) leads to
the unexpected-status `KeyError`, and a recognized key yields the
formatted message. -/
def parse_status (homework : List (String × PyVal)) :
    List LogEntry × Except PyErr String :=
  match homework.lookup "homework_name" with
  | Option.none =>
      ([], Except.error (PyErr.keyError "Ответ не содержит ключ \"homework_name\""))
  | some homework_name =>
      let logs1 : List LogEntry :=
        [(LogLevel.debug, "Последняя домашка: " ++ pyStr homework_name)]
      let homework_status := homework.lookup "status"
      let logs2 : List LogEntry :=
        [(LogLevel.debug,
          "Статус последней домашки: " ++ pyStr (homework_status.getD PyVal.none))]
      match statusKeyMem homework_status with
      | Except.error e => (logs1 ++ logs2, Except.error e)
      | Except.ok true =>
          (logs1 ++ logs2,
           Except.ok ("Изменился статус проверки работы \"" ++ pyStr homework_name ++
                      "\". " ++ verdictOf homework_status))
      | Except.ok false =>
          (logs1 ++ logs2,
           Except.error (PyErr.keyError
             "Неожиданный статус домашней работы,обнаруженный в ответе API"))

/-- Python `'homework_name' in xs` for a list: membership compares the
string against each element, true exactly when some element is the string
itself. -/
def containsNameStr (xs : List PyVal) : Bool :=
  xs.any fun v =>
    match v with
    | PyVal.str s => s == "homework_name"
    | _ => false

/-- `parse_status` as called from `main` on `homeworks[0]`, which
`check_response` guarantees to come from a list but not to be a dict.
CPython's `'homework_name' not in homework` on a list record is element
membership and on a string record a substring test (`splitOn` yields one
piece exactly when the separator does not occur): when the test finds no
`homework_name`, the missing-name `KeyError` of line 162 is raised as for
a dict without the key; when it finds one, `.get` then fails with an
`AttributeError`.  On non-iterable records (`None`, numbers, booleans) the
`in` test itself raises `TypeError`.  All these land in `main`'s generic
`except Exception` handler. -/
def parse_statusV : PyVal → List LogEntry × Except PyErr String
  | PyVal.dict kvs => parse_status kvs
  | PyVal.list xs =>
      if containsNameStr xs then
        ([], Except.error (PyErr.attributeError "'list' object has no attribute 'get'"))
      else
        ([], Except.error (PyErr.keyError "Ответ не содержит ключ \"homework_name\""))
  | PyVal.str s =>
      if (s.splitOn "homework_name").length ≠ 1 then
        ([], Except.error (PyErr.attributeError "'str' object has no attribute 'get'"))
      else
        ([], Except.error (PyErr.keyError "Ответ не содержит ключ \"homework_name\""))
  | PyVal.none =>
      ([], Except.error (PyErr.typeError "argument of type 'NoneType' is not iterable"))
  | PyVal.bool _ =>
      ([], Except.error (PyErr.typeError "argument of type 'bool' is not iterable"))
  | PyVal.int _ =>
      ([], Except.error (PyErr.typeError "argument of type 'int' is not iterable"))

/-- The module-level dicts `current_status` and `previous_status`.  Each
only ever holds the single key `'status'`, so it is an `Option String`:
`none` is the empty dict both start as, `some m` maps `'status'` to `m`. -/
structure NotifState where
  current_status : Option String
  previous_status : Option String
deriving DecidableEq, Repr

/-- `check_homeworks(bot, homeworks)`: on an empty list it composes the
fixed no-homework message, stores it in `current_status`, sends it when the
status dicts differ (also copying into `previous_status`), and returns
`false`; on a non-empty list it only logs and returns `true`.  (The source
rebinds `bot` to a fresh `telegram.Bot`, which changes nothing
observable.)  Result: (logs, messages handed to `bot.send_message`, new
state, return value). -/
def check_homeworks (homeworks : List PyVal) (st : NotifState) (tg : Option String) :
    List LogEntry × List String × NotifState × Bool :=
  if homeworks.isEmpty then
    let logs0 : List LogEntry :=
      [(LogLevel.info, "От API получен пустой список. Нет домашних заданий на проверке")]
    let message := "Нет домашних заданий на проверке"
    let st1 : NotifState := ⟨some "Нет домашних заданий на проверке", st.previous_status⟩
    if st1.current_status ≠ st1.previous_status then
      let sm := send_message tg message
      (logs0 ++ sm.1 ++ [(LogLevel.debug, "В Telegram отправлено: " ++ message ++ ".")],
       sm.2, ⟨st1.current_status, st1.current_status⟩, false)
    else
      (logs0 ++ [(LogLevel.error, "В Telegram сообщение не отправлено."),
                 (LogLevel.debug,
                  "Статус последней домашки не изменился после прошлой проверки****************************")],
       [], st1, false)
  else
    ([(LogLevel.debug, "Список домашек не пустой.")], [], st, true)

/-- `main`'s `except Exception as error` handler: composes the generic
failure message around `str(error)`, logs it, stores it in
`current_status`, and sends it only when the status dicts differ (then
copying into `previous_status`).  Result: (logs, sends, new state). -/
def generic_handler (e : PyErr) (tg : Option String) (st : NotifState) :
    List LogEntry × List String × NotifState :=
  let message := "Сбой в работе программы " ++ errStr e
  let logs0 : List LogEntry := [(LogLevel.error, message)]
  let st1 : NotifState := ⟨some message, st.previous_status⟩
  if st1.current_status ≠ st1.previous_status then
    let sm := send_message tg message
    (logs0 ++ sm.1 ++ [(LogLevel.debug, "В Telegram отправлено: " ++ message ++ ".")],
     sm.2, ⟨st1.current_status, st1.current_status⟩)
  else
    (logs0, [], st1)

/-- The world inputs of one poll cycle: how the GET turned out and how the
(at most one) `bot.send_message` call would turn out. -/
structure CycleInput where
  req : ReqOutcome
  tg : Option String

/-- Observable outcome of one iteration of `main`'s `while True` body:
the `from_date` passed to the API, the logs, the messages handed to
`bot.send_message`, and the notification state afterwards. -/
structure StepResult where
  from_date : Int
  logs : List LogEntry
  sends : List String
  state : NotifState

/-- One iteration of the `while True` loop in `main` (the `time.sleep`
has no observable effect in the model).  The `try` body runs
`get_api_answer` / `check_response` / `check_homeworks` / `parse_status`
and the deduplicated send; `raise SendingError` lands in the
`except SendingError` clause (only `logging.error(error)`), every other
exception in `generic_handler`. -/
def main_cycle (inp : CycleInput) (timestamp : Int) (st : NotifState) : StepResult :=
  let api := get_api_answer inp.req timestamp
  match api.result with
  | Except.error e =>
      let h := generic_handler e inp.tg st
      ⟨api.from_date, api.logs ++ h.1, h.2.1, h.2.2⟩
  | Except.ok api_response =>
      let logsA := api.logs ++ [(LogLevel.debug, "Получен ответ API.")]
      match check_response api_response with
      | Except.error e =>
          let h := generic_handler e inp.tg st
          ⟨api.from_date, logsA ++ h.1, h.2.1, h.2.2⟩
      | Except.ok homeworks =>
          let ch := check_homeworks homeworks st inp.tg
          let logsB := logsA ++ ch.1
          if ch.2.2.2 then
            match parse_statusV (homeworks.headD PyVal.none) with
            | (pLogs, Except.error e) =>
                let h := generic_handler e inp.tg ch.2.2.1
                ⟨api.from_date, logsB ++ pLogs ++ h.1, ch.2.1 ++ h.2.1, h.2.2⟩
            | (pLogs, Except.ok message) =>
                let logsC := logsB ++ pLogs ++
                  [(LogLevel.debug, "Извлечено сообщение о статусе последней домашки")]
                let st2 : NotifState := ⟨some message, ch.2.2.1.previous_status⟩
                if st2.current_status ≠ st2.previous_status then
                  let sm := send_message inp.tg message
                  ⟨api.from_date,
                   logsC ++ sm.1 ++ [(LogLevel.debug, "В Telegram отправлено: " ++ message ++ ".")],
                   ch.2.1 ++ sm.2, ⟨st2.current_status, st2.current_status⟩⟩
                else
                  ⟨api.from_date,
                   logsC ++ [(LogLevel.info, "В Telegram сообщение не отправлено."),
                     (LogLevel.debug,
                      "Статус последней домашки не изменился после предыдущей проверки*************"),
                     (LogLevel.error, errStr PyErr.sendingError)],
                   ch.2.1, st2⟩
          else
            ⟨api.from_date, logsB, ch.2.1, ch.2.2.1⟩

/-- The message a cycle composes (status message, fixed empty-list
message, or generic failure message), read off the same control flow as
`main_cycle`; it depends only on the request outcome, never on the
notification state or the timestamp. -/
def cycle_message (req : ReqOutcome) : String :=
  match (get_api_answer req 0).result with
  | Except.error e => "Сбой в работе программы " ++ errStr e
  | Except.ok body =>
      match check_response body with
      | Except.error e => "Сбой в работе программы " ++ errStr e
      | Except.ok homeworks =>
          if homeworks.isEmpty then "Нет домашних заданий на проверке"
          else
            match (parse_statusV (homeworks.headD PyVal.none)).2 with
            | Except.ok m => m
            | Except.error e => "Сбой в работе программы " ++ errStr e

/-- The `while True` loop of `main`, run over a finite prefix of world
inputs.  `timestamp` is bound once to `1111111111` before the loop and is
never reassigned inside it, so the same value is threaded through every
iteration. -/
def main_loop : List CycleInput → Int → NotifState → List StepResult × NotifState
  | [], _, st => ([], st)
  | inp :: rest, timestamp, st =>
      let r := main_cycle inp timestamp st
      let rec_ := main_loop rest timestamp r.state
      (r :: rec_.1, rec_.2)

/-- The `telegram.Bot(token=...)` constructor run on line 184 *before*
`check_tokens`.  python-telegram-bot validates the token at construction:
a `None` token raises `TypeError` (iterating `None` in
`_validate_token`), an empty one raises `InvalidToken`.  A present
non-empty token is taken to be well-formed (the library's format check on
genuine tokens is outside the model; the claims only quantify over
missing/empty credentials). -/
def telegram_Bot (token : Option String) : Except PyErr Unit :=
  match token with
  | Option.none => Except.error (PyErr.typeError "argument of type 'NoneType' is not iterable")
  | some t => if t = "" then Except.error PyErr.invalidToken else Except.ok ()

/-- Observable outcome of running `main` against a finite prefix of world
inputs: the pre-loop logs, an exception that escaped `main` (the process
dies with a traceback and exit status 1), the exit (`some 0` when
`check_tokens` calls the argument-less `sys.exit()`, `some 1` on an
uncaught exception), and the per-cycle results (empty when the process
died before the loop). -/
structure MainResult where
  startup_logs : List LogEntry
  uncaught : Option PyErr
  exit_code : Option Nat
  cycles : List StepResult

/-- `main()` up to the given world inputs: construct `telegram.Bot` (line
184, which raises uncaught on a missing/empty bot token — nothing is
logged before it), bind `timestamp = 1111111111`, run `check_tokens`
(which may exit the process), then the polling loop with both status
dicts empty. -/
def main (env : Env) (inputs : List CycleInput) : MainResult :=
  match telegram_Bot env.TELEGRAM_TOKEN with
  | Except.error e => ⟨[], some e, some 1, []⟩
  | Except.ok _ =>
      let pre : List LogEntry := [(LogLevel.debug, "***************Бот запущен")]
      let ct := check_tokens env
      if ct.2 then
        ⟨pre ++ ct.1, Option.none, some 0, []⟩
      else
        ⟨pre ++ ct.1 ++ [(LogLevel.debug, "Токены проверены")], Option.none, Option.none,
         (main_loop inputs 1111111111 ⟨Option.none, Option.none⟩).1⟩

/-! ## Helper lemmas -/

/-- Whatever the Telegram outcome, `send_message` makes exactly one
`bot.send_message` call with the given message. -/
lemma send_message_sends (tg : Option String) (m : String) :
    (send_message tg m).2 = [m] := by
  cases tg <;> rfl

/-- The result component of `get_api_answer` does not depend on the
timestamp (only the `from_date` it reports does). -/
lemma get_api_answer_result_const (req : ReqOutcome) (ts : Int) :
    (get_api_answer req ts).result = (get_api_answer req 0).result := by
  cases req with
  | resp code body =>
      by_cases h : code = HTTPStatus_OK <;> simp [get_api_answer, h]
  | connError => rfl
  | reqError m => rfl

/-- `from_date` reported by `get_api_answer` is the timestamp passed in. -/
lemma get_api_answer_from_date (req : ReqOutcome) (ts : Int) :
    (get_api_answer req ts).from_date = ts := by
  cases req with
  | resp code body =>
      by_cases h : code = HTTPStatus_OK <;> simp [get_api_answer, h]
  | connError => rfl
  | reqError m => rfl

/-- The generic `except Exception` handler sends the failure message
exactly when the status dicts differ, i.e. when `previous_status` does not
already hold that message. -/
lemma generic_handler_sends (e : PyErr) (tg : Option String) (st : NotifState) :
    (generic_handler e tg st).2.1 =
      if st.previous_status = some ("Сбой в работе программы " ++ errStr e) then []
      else ["Сбой в работе программы " ++ errStr e] := by
  by_cases h : st.previous_status = some ("Сбой в работе программы " ++ errStr e) <;>
    simp [generic_handler, h, send_message_sends, eq_comm]

/-- After the generic handler both status dicts hold the failure
message. -/
lemma generic_handler_state (e : PyErr) (tg : Option String) (st : NotifState) :
    (generic_handler e tg st).2.2 =
      ⟨some ("Сбой в работе программы " ++ errStr e),
       some ("Сбой в работе программы " ++ errStr e)⟩ := by
  by_cases h : st.previous_status = some ("Сбой в работе программы " ++ errStr e) <;>
    simp [generic_handler, h, eq_comm]

/-- `check_homeworks` on the empty list sends the fixed message exactly
when `previous_status` does not already hold it. -/
lemma check_homeworks_nil_sends (st : NotifState) (tg : Option String) :
    (check_homeworks [] st tg).2.1 =
      if st.previous_status = some "Нет домашних заданий на проверке" then []
      else ["Нет домашних заданий на проверке"] := by
  by_cases h : st.previous_status = some "Нет домашних заданий на проверке" <;>
    simp [check_homeworks, h, send_message_sends, eq_comm]

/-- After `check_homeworks` on the empty list both status dicts hold the
fixed message. -/
lemma check_homeworks_nil_state (st : NotifState) (tg : Option String) :
    (check_homeworks [] st tg).2.2.1 =
      ⟨some "Нет домашних заданий на проверке", some "Нет домашних заданий на проверке"⟩ := by
  by_cases h : st.previous_status = some "Нет домашних заданий на проверке" <;>
    simp [check_homeworks, h, eq_comm]

/-- `check_homeworks` on the empty list returns `False`. -/
lemma check_homeworks_nil_ret (st : NotifState) (tg : Option String) :
    (check_homeworks [] st tg).2.2.2 = false := by
  by_cases h : st.previous_status = some "Нет домашних заданий на проверке" <;>
    simp [check_homeworks, h, eq_comm]

/-- `check_homeworks` on a non-empty list only logs and returns `True`. -/
lemma check_homeworks_cons (x : PyVal) (xs : List PyVal) (st : NotifState) (tg : Option String) :
    check_homeworks (x :: xs) st tg =
      ([(LogLevel.debug, "Список домашек не пустой.")], [], st, true) := by
  simp [check_homeworks]

/-- Master characterization of one poll cycle: the `from_date` sent to the
API is the loop's timestamp; the cycle's composed message is sent exactly
when `previous_status` does not already hold it; and afterwards both
status dicts hold the composed message. -/
lemma main_cycle_spec (inp : CycleInput) (ts : Int) (st : NotifState) :
    (main_cycle inp ts st).from_date = ts ∧
    (main_cycle inp ts st).sends =
      (if st.previous_status = some (cycle_message inp.req) then []
       else [cycle_message inp.req]) ∧
    (main_cycle inp ts st).state =
      ⟨some (cycle_message inp.req), some (cycle_message inp.req)⟩ := by
  obtain ⟨req, tg⟩ := inp
  cases req with
  | connError =>
      refine ⟨?_, ?_, ?_⟩ <;>
        simp [main_cycle, cycle_message, get_api_answer,
          generic_handler_sends, generic_handler_state]
  | reqError m =>
      refine ⟨?_, ?_, ?_⟩ <;>
        simp [main_cycle, cycle_message, get_api_answer, check_response,
          generic_handler_sends, generic_handler_state]
  | resp code body =>
      by_cases hc : code = HTTPStatus_OK
      · rcases hcr : check_response body with e | hws
        · refine ⟨?_, ?_, ?_⟩ <;>
            simp [main_cycle, cycle_message, get_api_answer, hc, hcr,
              generic_handler_sends, generic_handler_state]
        · cases hws with
          | nil =>
              refine ⟨?_, ?_, ?_⟩ <;>
                simp [main_cycle, cycle_message, get_api_answer, hc, hcr,
                  check_homeworks_nil_sends, check_homeworks_nil_state,
                  check_homeworks_nil_ret]
          | cons x xs =>
              rcases hp : parse_statusV x with ⟨pl, pr⟩
              cases pr with
              | error e =>
                  refine ⟨?_, ?_, ?_⟩ <;>
                    simp [main_cycle, cycle_message, get_api_answer, hc, hcr, hp,
                      check_homeworks_cons, generic_handler_sends, generic_handler_state]
              | ok msg =>
                  by_cases hm : st.previous_status = some msg <;>
                    refine ⟨?_, ?_, ?_⟩ <;>
                      simp [main_cycle, cycle_message, get_api_answer, hc, hcr, hp,
                        check_homeworks_cons, send_message_sends, hm, eq_comm]
      · refine ⟨?_, ?_, ?_⟩ <;>
          simp [main_cycle, cycle_message, get_api_answer, hc,
            generic_handler_sends, generic_handler_state]

/-! ## Claim theorems -/

/-- Claim C2: for every homework record holding `homework_name = N` and
`status = "approved"`, `parse_status` returns exactly the string
`Изменился статус проверки работы "N". Работа проверена: ревьюеру всё
понравилось. Ура!`; in general the verdict text appended after the name is
the entry looked up for the status in the fixed three-entry
`HOMEWORK_VERDICTS` table. -/
theorem parse_status_formats_verdict :
    (∀ (hw : List (String × PyVal)) (N : String),
      hw.lookup "homework_name" = some (PyVal.str N) →
      hw.lookup "status" = some (PyVal.str "approved") →
      (parse_status hw).2 = Except.ok
        ("Изменился статус проверки работы \"" ++ N ++
         "\". Работа проверена: ревьюеру всё понравилось. Ура!")) ∧
    (∀ (hw : List (String × PyVal)) (N s v : String),
      hw.lookup "homework_name" = some (PyVal.str N) →
      hw.lookup "status" = some (PyVal.str s) →
      HOMEWORK_VERDICTS.lookup s = some v →
      (parse_status hw).2 = Except.ok
        ("Изменился статус проверки работы \"" ++ N ++ "\". " ++ v)) := by
  have key : ∀ (hw : List (String × PyVal)) (N s v : String),
      hw.lookup "homework_name" = some (PyVal.str N) →
      hw.lookup "status" = some (PyVal.str s) →
      HOMEWORK_VERDICTS.lookup s = some v →
      (parse_status hw).2 = Except.ok
        ("Изменился статус проверки работы \"" ++ N ++ "\". " ++ v) := by
    intro hw N s v h1 h2 h3
    simp [parse_status, h1, h2, statusKeyMem, verdictOf, h3, pyStr]
  refine ⟨?_, key⟩
  intro hw N h1 h2
  have := key hw N "approved" "Работа проверена: ревьюеру всё понравилось. Ура!" h1 h2 rfl
  rw [this, String.append_assoc]
  rfl

/-- Claim C3 (amended): `parse_status` raises the missing-key `KeyError`
when `homework_name` is absent; when the `status` value is hashable (a
string, number, boolean, or `None`) and not one of the three recognized
keys it raises the unexpected-status `KeyError`; an unhashable list/dict
`status` value instead makes the membership test of line 167 raise a
`TypeError`; in every unrecognized case `parse_status` fails and never
returns a message. -/
theorem parse_status_failure_conditions :
    (∀ hw : List (String × PyVal), hw.lookup "homework_name" = Option.none →
      (parse_status hw).2 = Except.error
        (PyErr.keyError "Ответ не содержит ключ \"homework_name\"")) ∧
    (∀ (hw : List (String × PyVal)) (nv sv : PyVal),
      hw.lookup "homework_name" = some nv →
      hw.lookup "status" = some sv →
      (∀ xs, sv ≠ PyVal.list xs) →
      (∀ kvs, sv ≠ PyVal.dict kvs) →
      (∀ t : String, sv = PyVal.str t →
        t ≠ "approved" ∧ t ≠ "reviewing" ∧ t ≠ "rejected") →
      (parse_status hw).2 = Except.error
        (PyErr.keyError "Неожиданный статус домашней работы,обнаруженный в ответе API")) ∧
    (∀ (hw : List (String × PyVal)) (nv : PyVal) (xs : List PyVal),
      hw.lookup "homework_name" = some nv →
      hw.lookup "status" = some (PyVal.list xs) →
      (parse_status hw).2 = Except.error (PyErr.typeError "unhashable type: 'list'")) ∧
    (∀ (hw : List (String × PyVal)) (nv : PyVal) (kvs : List (String × PyVal)),
      hw.lookup "homework_name" = some nv →
      hw.lookup "status" = some (PyVal.dict kvs) →
      (parse_status hw).2 = Except.error (PyErr.typeError "unhashable type: 'dict'")) ∧
    (∀ (hw : List (String × PyVal)) (sv : PyVal),
      hw.lookup "status" = some sv →
      (∀ t : String, sv = PyVal.str t →
        t ≠ "approved" ∧ t ≠ "reviewing" ∧ t ≠ "rejected") →
      ∀ m : String, (parse_status hw).2 ≠ Except.ok m) := by
  have hmem : ∀ sv : PyVal,
      (∀ xs, sv ≠ PyVal.list xs) →
      (∀ kvs, sv ≠ PyVal.dict kvs) →
      (∀ t : String, sv = PyVal.str t →
        t ≠ "approved" ∧ t ≠ "reviewing" ∧ t ≠ "rejected") →
      statusKeyMem (some sv) = Except.ok false := by
    intro sv hl hd h3
    cases sv with
    | str t =>
        obtain ⟨ht1, ht2, ht3⟩ := h3 t rfl
        have b1 : (t == "approved") = false := beq_eq_false_iff_ne.mpr ht1
        have b2 : (t == "reviewing") = false := beq_eq_false_iff_ne.mpr ht2
        have b3 : (t == "rejected") = false := beq_eq_false_iff_ne.mpr ht3
        simp [statusKeyMem, HOMEWORK_VERDICTS, List.lookup, b1, b2, b3]
    | none => rfl
    | bool b => rfl
    | int n => rfl
    | list xs => exact absurd rfl (hl xs)
    | dict kvs => exact absurd rfl (hd kvs)
  refine ⟨?_, ?_, ?_, ?_, ?_⟩
  · intro hw h1
    simp [parse_status, h1]
  · intro hw nv sv h1 h2 hl hd h3
    simp [parse_status, h1, h2, hmem sv hl hd h3]
  · intro hw nv xs h1 h2
    simp [parse_status, h1, h2, statusKeyMem]
  · intro hw nv kvs h1 h2
    simp [parse_status, h1, h2, statusKeyMem]
  · intro hw sv h2 h3 m
    cases h1 : hw.lookup "homework_name" with
    | none => simp [parse_status, h1]
    | some nv =>
        cases sv with
        | list xs => simp [parse_status, h1, h2, statusKeyMem]
        | dict kvs => simp [parse_status, h1, h2, statusKeyMem]
        | str t =>
            simp [parse_status, h1, h2,
              hmem (PyVal.str t) (fun _ h => PyVal.noConfusion h)
                (fun _ h => PyVal.noConfusion h) h3]
        | none => simp [parse_status, h1, h2, statusKeyMem]
        | bool b => simp [parse_status, h1, h2, statusKeyMem]
        | int n => simp [parse_status, h1, h2, statusKeyMem]

/-- Counterexample to claim C3 as stated: a record whose `status` value
`[]` is not one of the three recognized keys, yet `parse_status` raises
the membership test's `TypeError: unhashable type: 'list'`, not the
unexpected-value `KeyError`. -/
theorem parse_status_unhashable_status_counterexample :
    (parse_status [("homework_name", PyVal.str "X"), ("status", PyVal.list [])]).2 =
      Except.error (PyErr.typeError "unhashable type: 'list'") ∧
    (parse_status [("homework_name", PyVal.str "X"), ("status", PyVal.list [])]).2 ≠
      Except.error
        (PyErr.keyError "Неожиданный статус домашней работы,обнаруженный в ответе API") := by
  refine ⟨rfl, ?_⟩
  intro h
  rw [show (parse_status [("homework_name", PyVal.str "X"), ("status", PyVal.list [])]).2 =
        Except.error (PyErr.typeError "unhashable type: 'list'") from rfl] at h
  injection h with h2
  exact PyErr.noConfusion h2

/-- Claim C4: `check_response` raises a `TypeError` on a non-dict input, a
`KeyError` when the key `homeworks` is absent, a `TypeError` when the
value at `homeworks` is not a list, and otherwise returns that (possibly
empty) list. -/
theorem check_response_validation :
    (∀ v : PyVal, (∀ kvs, v ≠ PyVal.dict kvs) →
      check_response v = Except.error (PyErr.typeError "Ответ API не является словарем")) ∧
    (∀ kvs : List (String × PyVal), kvs.lookup "homeworks" = Option.none →
      check_response (PyVal.dict kvs) =
        Except.error (PyErr.keyError "Ответ API не содержит ключ homeworks")) ∧
    (∀ (kvs : List (String × PyVal)) (v : PyVal), kvs.lookup "homeworks" = some v →
      (∀ xs, v ≠ PyVal.list xs) →
      check_response (PyVal.dict kvs) =
        Except.error (PyErr.typeError "Ответ API под ключом \"homeworks\" не является списком")) ∧
    (∀ (kvs : List (String × PyVal)) (xs : List PyVal),
      kvs.lookup "homeworks" = some (PyVal.list xs) →
      check_response (PyVal.dict kvs) = Except.ok xs) := by
  refine ⟨?_, ?_, ?_, ?_⟩
  · intro v hv
    cases v with
    | dict kvs => exact absurd rfl (hv kvs)
    | none => rfl
    | bool b => rfl
    | int n => rfl
    | str s => rfl
    | list xs => rfl
  · intro kvs h
    simp [check_response, h]
  · intro kvs v h1 h2
    cases v with
    | list xs => exact absurd rfl (h2 xs)
    | none => simp [check_response, h1]
    | bool b => simp [check_response, h1]
    | int n => simp [check_response, h1]
    | str s => simp [check_response, h1]
    | dict kvs2 => simp [check_response, h1]
  · intro kvs xs h
    simp [check_response, h]

/-- Claim C6: on a non-OK HTTP status `get_api_answer` logs an error
naming the endpoint and the status code and raises the HTTP error; on a
connection failure it raises `ConnectionError('Connection error')`; and
the two error conditions are distinct. -/
theorem get_api_answer_error_conditions :
    (∀ (code : Nat) (body : PyVal) (ts : Int), code ≠ HTTPStatus_OK →
      get_api_answer (ReqOutcome.resp code body) ts =
        ⟨ts, [(LogLevel.error,
               "Сбой в работе программы: Эндпойнт " ++ ENDPOINT ++
               " недоступен. Код ответа API: " ++ toString code)],
         Except.error PyErr.httpError⟩) ∧
    (∀ ts : Int, get_api_answer ReqOutcome.connError ts =
        ⟨ts, [], Except.error (PyErr.connectionError "Connection error")⟩) ∧
    (∀ m : String, PyErr.httpError ≠ PyErr.connectionError m) := by
  refine ⟨?_, fun ts => rfl, fun m h => PyErr.noConfusion h⟩
  intro code body ts h
  simp [get_api_answer, h]

/-- Claim C7: on a request-level failure other than a connection error,
`get_api_answer` logs the error and then falls through, returning Python
`None` instead of propagating any typed error. -/
theorem request_failure_falls_through (m : String) (ts : Int) :
    get_api_answer (ReqOutcome.reqError m) ts =
      ⟨ts, [(LogLevel.error, "Request error " ++ m)], Except.ok PyVal.none⟩ := rfl

/-- Claim C10: a record with `homework_name` but no `status` key at all
makes `parse_status` raise the same unexpected-status `KeyError` as an
unrecognized status value, which is distinct from the missing-key error
used for an absent `homework_name`. -/
theorem parse_status_missing_status_not_distinct :
    ∀ (hw : List (String × PyVal)) (nv : PyVal),
      hw.lookup "homework_name" = some nv →
      hw.lookup "status" = Option.none →
      (parse_status hw).2 = Except.error
        (PyErr.keyError "Неожиданный статус домашней работы,обнаруженный в ответе API") ∧
      PyErr.keyError "Неожиданный статус домашней работы,обнаруженный в ответе API" ≠
        PyErr.keyError "Ответ не содержит ключ \"homework_name\"" := by
  intro hw nv h1 h2
  refine ⟨?_, by decide⟩
  simp [parse_status, h1, h2, statusKeyMem]

/-- Every cycle result produced by the loop reports the loop's (constant)
timestamp as the `from_date` it sent. -/
lemma main_loop_from_date (inputs : List CycleInput) (ts : Int) (st : NotifState) :
    ∀ r ∈ (main_loop inputs ts st).1, r.from_date = ts := by
  induction inputs generalizing st with
  | nil => intro r hr; simp [main_loop] at hr
  | cons inp rest ih =>
      intro r hr
      rw [main_loop] at hr
      rcases List.mem_cons.mp hr with h | h
      · subst h; exact (main_cycle_spec inp ts st).1
      · exact ih _ r h

/-- Claim C1: in every poll cycle, if the newly composed message (status
message, fixed empty-list message, or generic failure message) equals the
message held in the notification state, no `bot.send_message` call occurs;
the message is handed to `bot.send_message`, and `previous_status` is
overwritten with it, exactly when the two differ. -/
theorem cycle_sends_iff_message_changed (inp : CycleInput) (ts : Int) (st : NotifState) :
    (st.previous_status = some (cycle_message inp.req) →
      (main_cycle inp ts st).sends = []) ∧
    (st.previous_status ≠ some (cycle_message inp.req) →
      (main_cycle inp ts st).sends = [cycle_message inp.req] ∧
      (main_cycle inp ts st).state.previous_status = some (cycle_message inp.req)) ∧
    ((main_cycle inp ts st).sends ≠ [] →
      st.previous_status ≠ some (cycle_message inp.req)) := by
  obtain ⟨-, hs, hst⟩ := main_cycle_spec inp ts st
  refine ⟨fun h => by simp [hs, h], fun h => ⟨by simp [hs, h], by simp [hst]⟩, ?_⟩
  intro hne h
  rw [hs, if_pos h] at hne
  exact hne rfl

/-- A falsy bot token makes the `telegram.Bot` construction of line 184
raise. -/
lemma telegram_Bot_falsy (tok : Option String) (h : falsyEnv tok = true) :
    ∃ e, telegram_Bot tok = Except.error e := by
  cases tok with
  | none => exact ⟨_, rfl⟩
  | some t =>
      have ht : t = "" := by simpa [falsyEnv] using h
      subst ht
      exact ⟨_, rfl⟩

/-- A non-falsy bot token lets the `telegram.Bot` construction of line
184 succeed (well-formedness of genuine tokens is assumed). -/
lemma telegram_Bot_ok (tok : Option String) (h : falsyEnv tok = false) :
    telegram_Bot tok = Except.ok () := by
  cases tok with
  | none => simp [falsyEnv] at h
  | some t =>
      have ht : t ≠ "" := by simpa [falsyEnv] using h
      simp [telegram_Bot, ht]

/-- Claim C5 (amended): when the missing subset does not include the bot
token, `check_tokens` logs a critical record naming each missing
credential and the process exits cleanly (the argument-less `sys.exit()`,
status 0) with zero poll cycles run; but when `TELEGRAM_TOKEN` itself is
unset or empty the process instead dies with an uncaught exception at the
`telegram.Bot` construction of line 184 — before any critical logging,
without the clean exit, and without entering the loop. -/
theorem missing_credentials_abort (env : Env) (inputs : List CycleInput) :
    (falsyEnv env.TELEGRAM_TOKEN = false →
      (falsyEnv env.PRACTICUM_TOKEN = true ∨ falsyEnv env.TELEGRAM_CHAT_ID = true) →
      (main env inputs).exit_code = some 0 ∧
      (main env inputs).cycles = [] ∧
      (falsyEnv env.PRACTICUM_TOKEN = true →
        (LogLevel.critical, "Отсутствует обязательная переменная окружения PRACTICUM_TOKEN")
          ∈ (main env inputs).startup_logs) ∧
      (falsyEnv env.TELEGRAM_CHAT_ID = true →
        (LogLevel.critical, "Отсутствует обязательная переменная окружения TELEGRAM_CHAT_ID.")
          ∈ (main env inputs).startup_logs)) ∧
    (falsyEnv env.TELEGRAM_TOKEN = true →
      (∃ e, (main env inputs).uncaught = some e) ∧
      (main env inputs).exit_code ≠ some 0 ∧
      (main env inputs).cycles = [] ∧
      (main env inputs).startup_logs = []) := by
  constructor
  · intro hT hmiss
    have hb : telegram_Bot env.TELEGRAM_TOKEN = Except.ok () :=
      telegram_Bot_ok env.TELEGRAM_TOKEN hT
    cases hP : falsyEnv env.PRACTICUM_TOKEN <;>
    cases hC : falsyEnv env.TELEGRAM_CHAT_ID <;>
      simp [hP, hC] at hmiss ⊢ <;>
      simp [main, hb, check_tokens, hP, hT, hC]
  · intro hT
    obtain ⟨e, hb⟩ := telegram_Bot_falsy env.TELEGRAM_TOKEN hT
    exact ⟨⟨e, by simp [main, hb]⟩, by simp [main, hb], by simp [main, hb],
           by simp [main, hb]⟩

/-- Counterexample to claim C5 as stated: with only `TELEGRAM_TOKEN`
unset, the process does not log any critical record and does not exit
cleanly — it dies at the `telegram.Bot` construction with an uncaught
`TypeError` (exit status 1) before `check_tokens` runs. -/
theorem missing_bot_token_crash_counterexample :
    (main ⟨some "p", Option.none, some "chat"⟩ []).startup_logs = [] ∧
    (main ⟨some "p", Option.none, some "chat"⟩ []).uncaught =
      some (PyErr.typeError "argument of type 'NoneType' is not iterable") ∧
    (main ⟨some "p", Option.none, some "chat"⟩ []).exit_code = some 1 ∧
    (main ⟨some "p", Option.none, some "chat"⟩ []).exit_code ≠ some 0 := by
  refine ⟨rfl, rfl, rfl, ?_⟩
  intro h
  rw [show (main ⟨some "p", Option.none, some "chat"⟩ []).exit_code = some 1 from rfl] at h
  injection h with h2
  exact one_ne_zero h2

/-- Claim C8: a `TelegramError` inside `send_message` is logged and
swallowed (the call is still made and nothing is raised past the
boundary), the loop afterwards still overwrites `previous_status` with the
composed message, and a later cycle composing the same message sends
nothing, so the failed delivery is never retried. -/
theorem send_failure_swallowed_not_resent (req : ReqOutcome) (err : String) (m : String)
    (tg2 : Option String) (ts ts2 : Int) (st : NotifState) :
    send_message (some err) m =
      ([(LogLevel.error, "Сбой при отправке сообщения в Telegram: " ++ err)], [m]) ∧
    (main_cycle ⟨req, some err⟩ ts st).state.previous_status = some (cycle_message req) ∧
    (main_cycle ⟨req, tg2⟩ ts2 (main_cycle ⟨req, some err⟩ ts st).state).sends = [] := by
  refine ⟨rfl, ?_, ?_⟩
  · simp [(main_cycle_spec ⟨req, some err⟩ ts st).2.2]
  · obtain ⟨-, -, h1⟩ := main_cycle_spec ⟨req, some err⟩ ts st
    obtain ⟨-, h2, -⟩ := main_cycle_spec ⟨req, tg2⟩ ts2 (main_cycle ⟨req, some err⟩ ts st).state
    rw [h1] at h2 ⊢
    rw [h2]
    simp

/-- Claim C9: every iteration of the polling loop passes the same fixed
startup value 1111111111 as the `from_date` lower bound of
`get_api_answer`; the timestamp is never advanced across iterations. -/
theorem from_date_never_advances (env : Env) (inputs : List CycleInput) :
    ((main env inputs).cycles.all (fun r => r.from_date == 1111111111)) = true := by
  rcases hb : telegram_Bot env.TELEGRAM_TOKEN with e | u
  · simp [main, hb]
  · cases hct : (check_tokens env).2
    · rw [List.all_eq_true]
      intro r hr
      have : r ∈ (main_loop inputs 1111111111 ⟨Option.none, Option.none⟩).1 := by
        simpa [main, hb, hct] using hr
      simp [main_loop_from_date inputs 1111111111 ⟨Option.none, Option.none⟩ r this]
    · simp [main, hb, hct]

/-! ## Concrete witnesses -/

/-- Witness for `cycle_sends_iff_message_changed`: with an empty homework
list the fixed message is suppressed when the state already holds it and
sent when it does not. -/
theorem cycle_sends_iff_message_changed_witness :
    (main_cycle ⟨ReqOutcome.resp 200 (PyVal.dict [("homeworks", PyVal.list [])]), Option.none⟩ 0
        ⟨Option.none, some "Нет домашних заданий на проверке"⟩).sends = [] ∧
    (main_cycle ⟨ReqOutcome.resp 200 (PyVal.dict [("homeworks", PyVal.list [])]), Option.none⟩ 0
        ⟨Option.none, Option.none⟩).sends = ["Нет домашних заданий на проверке"] :=
  ⟨(cycle_sends_iff_message_changed
      ⟨ReqOutcome.resp 200 (PyVal.dict [("homeworks", PyVal.list [])]), Option.none⟩ 0
      ⟨Option.none, some "Нет домашних заданий на проверке"⟩).1 rfl,
   ((cycle_sends_iff_message_changed
      ⟨ReqOutcome.resp 200 (PyVal.dict [("homeworks", PyVal.list [])]), Option.none⟩ 0
      ⟨Option.none, Option.none⟩).2.1 (by simp)).1⟩

/-- Witness for `parse_status_formats_verdict` at concrete records. -/
theorem parse_status_formats_verdict_witness :
    (parse_status [("homework_name", PyVal.str "N"), ("status", PyVal.str "approved")]).2 =
      Except.ok "Изменился статус проверки работы \"N\". Работа проверена: ревьюеру всё понравилось. Ура!" ∧
    (parse_status [("homework_name", PyVal.str "HW1"), ("status", PyVal.str "rejected")]).2 =
      Except.ok "Изменился статус проверки работы \"HW1\". Работа проверена: у ревьюера есть замечания." :=
  ⟨parse_status_formats_verdict.1 _ "N" rfl rfl,
   parse_status_formats_verdict.2 _ "HW1" "rejected"
     "Работа проверена: у ревьюера есть замечания." rfl rfl rfl⟩

/-- Witness for `parse_status_failure_conditions` at concrete records. -/
theorem parse_status_failure_conditions_witness :
    (parse_status [("status", PyVal.str "approved")]).2 =
      Except.error (PyErr.keyError "Ответ не содержит ключ \"homework_name\"") ∧
    (parse_status [("homework_name", PyVal.str "X"), ("status", PyVal.str "weird")]).2 =
      Except.error (PyErr.keyError "Неожиданный статус домашней работы,обнаруженный в ответе API") ∧
    (parse_status [("homework_name", PyVal.str "X"), ("status", PyVal.list [PyVal.int 1])]).2 =
      Except.error (PyErr.typeError "unhashable type: 'list'") ∧
    (parse_status [("homework_name", PyVal.str "X"), ("status", PyVal.str "weird")]).2 ≠
      Except.ok "сообщение" :=
  ⟨parse_status_failure_conditions.1 _ rfl,
   parse_status_failure_conditions.2.1 _ (PyVal.str "X") (PyVal.str "weird") rfl rfl
     (fun _xs h => PyVal.noConfusion h) (fun _kvs h => PyVal.noConfusion h)
     (by intro t ht; injection ht with h; subst h;
         exact ⟨by decide, by decide, by decide⟩),
   parse_status_failure_conditions.2.2.1 _ (PyVal.str "X") [PyVal.int 1] rfl rfl,
   parse_status_failure_conditions.2.2.2.2
     [("homework_name", PyVal.str "X"), ("status", PyVal.str "weird")] (PyVal.str "weird") rfl
     (by intro t ht; injection ht with h; subst h;
         exact ⟨by decide, by decide, by decide⟩) "сообщение"⟩

/-- Witness for `check_response_validation` at concrete responses. -/
theorem check_response_validation_witness :
    check_response (PyVal.int 3) =
      Except.error (PyErr.typeError "Ответ API не является словарем") ∧
    check_response (PyVal.dict [("foo", PyVal.list [])]) =
      Except.error (PyErr.keyError "Ответ API не содержит ключ homeworks") ∧
    check_response (PyVal.dict [("homeworks", PyVal.int 7)]) =
      Except.error (PyErr.typeError "Ответ API под ключом \"homeworks\" не является списком") ∧
    check_response (PyVal.dict [("homeworks", PyVal.list [])]) = Except.ok [] :=
  ⟨check_response_validation.1 _ (fun _kvs h => PyVal.noConfusion h),
   check_response_validation.2.1 _ rfl,
   check_response_validation.2.2.1 _ (PyVal.int 7) rfl (fun _xs h => PyVal.noConfusion h),
   check_response_validation.2.2.2 _ [] rfl⟩

/-- Witness for `missing_credentials_abort`: an unset API token with a
present bot token reaches the clean-exit path, while an empty bot token
crashes the process uncaught. -/
theorem missing_credentials_abort_witness :
    (main ⟨Option.none, some "tok", some "chat"⟩ []).exit_code = some 0 ∧
    (main ⟨Option.none, some "tok", some "chat"⟩ []).cycles = [] ∧
    (∃ e, (main ⟨some "p", some "", some "chat"⟩ []).uncaught = some e) ∧
    (main ⟨some "p", some "", some "chat"⟩ []).exit_code ≠ some 0 :=
  ⟨((missing_credentials_abort ⟨Option.none, some "tok", some "chat"⟩ []).1 rfl (Or.inl rfl)).1,
   ((missing_credentials_abort ⟨Option.none, some "tok", some "chat"⟩ []).1 rfl (Or.inl rfl)).2.1,
   ((missing_credentials_abort ⟨some "p", some "", some "chat"⟩ []).2 rfl).1,
   ((missing_credentials_abort ⟨some "p", some "", some "chat"⟩ []).2 rfl).2.1⟩

/-- Witness for `get_api_answer_error_conditions` at status code 404. -/
theorem get_api_answer_error_conditions_witness :
    get_api_answer (ReqOutcome.resp 404 PyVal.none) 7 =
      ⟨7, [(LogLevel.error,
            "Сбой в работе программы: Эндпойнт https://practicum.yandex.ru/api/user_api/homework_statuses/ недоступен. Код ответа API: 404")],
       Except.error PyErr.httpError⟩ :=
  get_api_answer_error_conditions.1 404 PyVal.none 7 (by decide)

/-- Witness for `parse_status_missing_status_not_distinct` at a record
with a name but no status key. -/
theorem parse_status_missing_status_not_distinct_witness :
    (parse_status [("homework_name", PyVal.str "X")]).2 =
      Except.error (PyErr.keyError "Неожиданный статус домашней работы,обнаруженный в ответе API") ∧
    PyErr.keyError "Неожиданный статус домашней работы,обнаруженный в ответе API" ≠
      PyErr.keyError "Ответ не содержит ключ \"homework_name\"" :=
  parse_status_missing_status_not_distinct [("homework_name", PyVal.str "X")] (PyVal.str "X") rfl rfl

end HomeworkBot
